import Mathlib

/-!
# ArduboyTones (dotMG) — verification of the tone-sequencing state machine

Shallow embedding of `src/ArduboyTonesDotMG.cpp` / `src/ArduboyTones.h`.

The library's mutable globals (`tonesStart`, `tonesIndex`, `toneSequence`,
`durationToggleCount`, `tonesPlaying`, `toneSilent`, `toneHighVol`,
`forceHighVol`, `forceNormVol`, `inProgmem`, the timer compare register and
the DAC data register) become the fields of a single state record
`TonesState`.  Memory holding 16-bit sequence words is a function
`Nat → Nat`; the internal buffer `toneSequence` lives at addresses
`0 .. MAX_TONES * 2`, and caller-supplied arrays live at whatever base the
caller passes.  `pgm_read_word` and a plain RAM read are the same operation
on this memory, so `inProgmem` is carried for fidelity but does not change
`getNext`'s behaviour.

The injected `outputEnabled` predicate is modelled as a stream
`gate : Nat → Bool` of its successive return values, with `outCalls`
counting how many times it has been invoked; this makes "queried exactly
once per tone" a provable statement.

The timer interrupt handler `TC3_Handler` becomes a step function on the
state; one application is one timer tick (one half-period of the current
tone).
-/

/-- `TONES_END` (ArduboyTones.h): frequency slot value terminating a sequence. -/
def TONES_END : Nat := 0x8000

/-- `TONES_REPEAT` (ArduboyTones.h): frequency slot value looping to sequence start. -/
def TONES_REPEAT : Nat := 0x8001

/-- `TONE_HIGH_VOLUME` (ArduboyTones.h): bit added to a frequency for high volume. -/
def TONE_HIGH_VOLUME : Nat := 0x8000

/-- `VOLUME_IN_TONE` (ArduboyTones.h). -/
def VOLUME_IN_TONE : Nat := 0

/-- `VOLUME_ALWAYS_NORMAL` (ArduboyTones.h). -/
def VOLUME_ALWAYS_NORMAL : Nat := 1

/-- `VOLUME_ALWAYS_HIGH` (ArduboyTones.h). -/
def VOLUME_ALWAYS_HIGH : Nat := 2

/-- `MAX_TONES` (ArduboyTones.h). -/
def MAX_TONES : Nat := 3

/-- `SILENT_FREQ` (ArduboyTones.h): dummy frequency used for silent tones (rests). -/
def SILENT_FREQ : Nat := 25

/-- Modelled from the spec: `clockRate = F_CPU`, the platform CPU clock
define, which is supplied by the Arduino build environment rather than by
these sources (48 MHz on the dotMG's SAMD21). -/
def F_CPU : Nat := 48000000

/-- The timer-count computation of `nextTone`
(`F_CPU / 16 / freq / 2 - 1`, lines 193 and 199), as a function of the
clock rate and the frequency.  Natural-number division and truncated
subtraction; the C computation is on `uint32_t` values where no
wrap-around occurs for the frequencies in range. -/
def timerCountFor (clockRate freq : Nat) : Nat :=
  clockRate / 16 / freq / 2 - 1

/-- The shared mutable state of the library: statics of the .cpp file plus
the timer compare register (`CC[0]`, 16 bits) and the DAC data register. -/
structure TonesState where
  /-- 16-bit word memory; internal `toneSequence` buffer at `0 .. MAX_TONES*2`. -/
  mem : Nat → Nat
  /-- `tonesStart`: address of the first word of the active sequence. -/
  tonesStart : Nat
  /-- `tonesIndex`: address of the next word to read. -/
  tonesIndex : Nat
  /-- `inProgmem` flag (reads behave identically in this memory model). -/
  inProgmem : Bool
  /-- `tonesPlaying`. -/
  tonesPlaying : Bool
  /-- `toneSilent`. -/
  toneSilent : Bool
  /-- `toneHighVol`. -/
  toneHighVol : Bool
  /-- `forceHighVol`. -/
  forceHighVol : Bool
  /-- `forceNormVol`. -/
  forceNormVol : Bool
  /-- `durationToggleCount` (a C `long`; `-1` marks infinite duration). -/
  durationToggleCount : Int
  /-- Timer compare register `TIMER_CTRL->COUNT16.CC[0]` (16 bits). -/
  timerCC : Nat
  /-- Timer counter enable bit. -/
  timerEnabled : Bool
  /-- DAC data register `DAC->DATA.reg`. -/
  dacData : Nat
  /-- Number of calls made so far to the injected `outputEnabled` predicate. -/
  outCalls : Nat

/-- Point update of the word memory. -/
def writeMem (m : Nat → Nat) (i v : Nat) : Nat → Nat :=
  fun j => if j = i then v else m j

/-- `ArduboyTones::getNext`: read the word at the cursor and advance it. -/
def getNext (s : TonesState) : Nat × TonesState :=
  (s.mem s.tonesIndex, { s with tonesIndex := s.tonesIndex + 1 })

/-- `ArduboyTones::noTone`: disable the counter and clear `tonesPlaying`. -/
def noTone (s : TonesState) : TonesState :=
  { s with timerEnabled := false, tonesPlaying := false }

/-- `ArduboyTones::volumeMode`. -/
def volumeMode (mode : Nat) (s : TonesState) : TonesState :=
  if mode = VOLUME_ALWAYS_NORMAL then
    { s with forceNormVol := true, forceHighVol := false }
  else if mode = VOLUME_ALWAYS_HIGH then
    { s with forceNormVol := false, forceHighVol := true }
  else
    { s with forceNormVol := false, forceHighVol := false }

/-- `ArduboyTones::playing`. -/
def playing (s : TonesState) : Bool :=
  s.tonesPlaying

/-- The tail of `ArduboyTones::nextTone` from line 183 on, applied to the
frequency code `freq0` just read: volume handling, bit strip, rest / timer
count computation, mute query, duration read, toggle count, arming. -/
def loadTone (gate : Nat → Bool) (freq0 : Nat) (s : TonesState) : TonesState :=
  let hv : Bool := ((freq0 &&& TONE_HIGH_VOLUME != 0) || s.forceHighVol)
                     && !s.forceNormVol
  let freq1 := freq0 &&& 0x7FFF
  let p :=
    if freq1 = 0 then
      (timerCountFor F_CPU SILENT_FREQ, SILENT_FREQ, true)
    else
      (timerCountFor F_CPU freq1, freq1, false)
  let sil := if gate s.outCalls then p.2.2 else true
  let s1 := { s with toneHighVol := hv, toneSilent := sil,
                     outCalls := s.outCalls + 1 }
  let d := getNext s1
  let toggleCount : Int :=
    if d.1 ≠ 0 then (((d.1 * p.2.1) >>> 9 : Nat) : Int) else -1
  { d.2 with durationToggleCount := toggleCount,
             timerCC := p.1 % 2 ^ 16,
             timerEnabled := true }

/-- `ArduboyTones::nextTone`. -/
def nextTone (gate : Nat → Bool) (s : TonesState) : TonesState :=
  let r := getNext s
  if r.1 = TONES_END then
    noTone r.2
  else
    let s2 := { r.2 with tonesPlaying := true }
    if r.1 = TONES_REPEAT then
      let s3 := { s2 with tonesIndex := s2.tonesStart }
      let r2 := getNext s3
      loadTone gate r2.1 r2.2
    else
      loadTone gate r.1 s2

/-- `ArduboyTones::tone(freq, dur)`: one tone into the internal buffer. -/
def tone1 (gate : Nat → Bool) (freq dur : Nat) (s : TonesState) : TonesState :=
  let s1 := { s with timerEnabled := false, inProgmem := false,
                     tonesStart := 0, tonesIndex := 0,
                     mem := writeMem (writeMem (writeMem s.mem 0 freq) 1 dur)
                              2 TONES_END }
  nextTone gate s1

/-- `ArduboyTones::tone(freq1, dur1, freq2, dur2)`. -/
def tone2 (gate : Nat → Bool) (freq1 dur1 freq2 dur2 : Nat)
    (s : TonesState) : TonesState :=
  let s1 := { s with timerEnabled := false, inProgmem := false,
                     tonesStart := 0, tonesIndex := 0,
                     mem := writeMem (writeMem (writeMem (writeMem
                              (writeMem s.mem 0 freq1) 1 dur1) 2 freq2)
                              3 dur2) 4 TONES_END }
  nextTone gate s1

/-- `ArduboyTones::tone(freq1, dur1, freq2, dur2, freq3, dur3)`:
writes the six slots; the end marker was set by the constructor. -/
def tone3 (gate : Nat → Bool) (freq1 dur1 freq2 dur2 freq3 dur3 : Nat)
    (s : TonesState) : TonesState :=
  let s1 := { s with timerEnabled := false, inProgmem := false,
                     tonesStart := 0, tonesIndex := 0,
                     mem := writeMem (writeMem (writeMem (writeMem
                              (writeMem (writeMem s.mem 0 freq1) 1 dur1)
                              2 freq2) 3 dur2) 4 freq3) 5 dur3 }
  nextTone gate s1

/-- `ArduboyTones::tones`: play a caller-supplied PROGMEM sequence at `p`. -/
def tones (gate : Nat → Bool) (p : Nat) (s : TonesState) : TonesState :=
  let s1 := { s with timerEnabled := false, inProgmem := true,
                     tonesStart := p, tonesIndex := p }
  nextTone gate s1

/-- `ArduboyTones::tonesInRAM`: play a caller-supplied RAM sequence at `p`. -/
def tonesInRAM (gate : Nat → Bool) (p : Nat) (s : TonesState) : TonesState :=
  let s1 := { s with timerEnabled := false, inProgmem := false,
                     tonesStart := p, tonesIndex := p }
  nextTone gate s1

/-- `TC3_Handler`: one timer tick.  If the toggle count is nonzero the
output sample is flipped (unless silent) and a positive count is
decremented; a zero count advances to the next tone. -/
def TC3_Handler (gate : Nat → Bool) (s : TonesState) : TonesState :=
  if s.durationToggleCount ≠ 0 then
    let s1 :=
      if !s.toneSilent then
        { s with dacData :=
            if s.dacData ≠ 0 then 0 else
              if s.toneHighVol then 1023 else 511 }
      else s
    if s1.durationToggleCount > 0 then
      { s1 with durationToggleCount := s1.durationToggleCount - 1 }
    else s1
  else
    nextTone gate s

/-- `ArduboyTones::ArduboyTones`: the constructor writes the terminal END
sentinel at `toneSequence[MAX_TONES * 2]`; all other statics start
zero-initialised.  `m0` is the arbitrary initial content of memory. -/
def initState (m0 : Nat → Nat) : TonesState :=
  { mem := writeMem m0 (MAX_TONES * 2) TONES_END,
    tonesStart := 0, tonesIndex := 0, inProgmem := false,
    tonesPlaying := false, toneSilent := false, toneHighVol := false,
    forceHighVol := false, forceNormVol := false,
    durationToggleCount := 0, timerCC := 0, timerEnabled := false,
    dacData := 0, outCalls := 0 }

/-- A gate that always permits sound. -/
def gateOn : Nat → Bool := fun _ => true

/-! ## Projection lemmas for `loadTone` -/

lemma loadTone_outCalls (gate : Nat → Bool) (f : Nat) (s : TonesState) :
    (loadTone gate f s).outCalls = s.outCalls + 1 := rfl

lemma loadTone_playing (gate : Nat → Bool) (f : Nat) (s : TonesState) :
    (loadTone gate f s).tonesPlaying = s.tonesPlaying := rfl

lemma loadTone_index (gate : Nat → Bool) (f : Nat) (s : TonesState) :
    (loadTone gate f s).tonesIndex = s.tonesIndex + 1 := rfl

lemma loadTone_mem (gate : Nat → Bool) (f : Nat) (s : TonesState) :
    (loadTone gate f s).mem = s.mem := rfl

lemma loadTone_start (gate : Nat → Bool) (f : Nat) (s : TonesState) :
    (loadTone gate f s).tonesStart = s.tonesStart := rfl

lemma loadTone_dac (gate : Nat → Bool) (f : Nat) (s : TonesState) :
    (loadTone gate f s).dacData = s.dacData := rfl

lemma loadTone_highVol (gate : Nat → Bool) (f : Nat) (s : TonesState) :
    (loadTone gate f s).toneHighVol
      = ((((f &&& TONE_HIGH_VOLUME) != 0) || s.forceHighVol)
          && !s.forceNormVol) := rfl

lemma loadTone_silent_on (gate : Nat → Bool) (f : Nat) (s : TonesState)
    (hg : gate s.outCalls = true) (hf : f &&& 0x7FFF ≠ 0) :
    (loadTone gate f s).toneSilent = false := by
  simp [loadTone, getNext, hg, hf]

lemma loadTone_silent_rest (gate : Nat → Bool) (f : Nat) (s : TonesState)
    (hf : f &&& 0x7FFF = 0) :
    (loadTone gate f s).toneSilent = true := by
  cases hg : gate s.outCalls <;> simp [loadTone, getNext, hf, hg]

lemma loadTone_silent_muted (gate : Nat → Bool) (f : Nat) (s : TonesState)
    (hg : gate s.outCalls = false) :
    (loadTone gate f s).toneSilent = true := by
  simp [loadTone, getNext, hg]

lemma loadTone_count (gate : Nat → Bool) (f : Nat) (s : TonesState)
    (hf : f &&& 0x7FFF ≠ 0) (hd : s.mem s.tonesIndex ≠ 0) :
    (loadTone gate f s).durationToggleCount
      = (((s.mem s.tonesIndex * (f &&& 0x7FFF)) >>> 9 : Nat) : Int) := by
  simp [loadTone, getNext, hf, hd]

lemma loadTone_count_rest (gate : Nat → Bool) (f : Nat) (s : TonesState)
    (hf : f &&& 0x7FFF = 0) (hd : s.mem s.tonesIndex ≠ 0) :
    (loadTone gate f s).durationToggleCount
      = (((s.mem s.tonesIndex * SILENT_FREQ) >>> 9 : Nat) : Int) := by
  simp [loadTone, getNext, hf, hd]

lemma loadTone_count_inf (gate : Nat → Bool) (f : Nat) (s : TonesState)
    (hd : s.mem s.tonesIndex = 0) :
    (loadTone gate f s).durationToggleCount = -1 := by
  simp [loadTone, getNext, hd]

lemma loadTone_timerCC (gate : Nat → Bool) (f : Nat) (s : TonesState)
    (hf : f &&& 0x7FFF ≠ 0) :
    (loadTone gate f s).timerCC
      = timerCountFor F_CPU (f &&& 0x7FFF) % 2 ^ 16 := by
  simp [loadTone, hf]

lemma loadTone_timerCC_rest (gate : Nat → Bool) (f : Nat) (s : TonesState)
    (hf : f &&& 0x7FFF = 0) :
    (loadTone gate f s).timerCC
      = timerCountFor F_CPU SILENT_FREQ % 2 ^ 16 := by
  simp [loadTone, hf]

/-! ## Branch lemmas for `nextTone` -/

lemma nextTone_end (gate : Nat → Bool) (s : TonesState)
    (h : s.mem s.tonesIndex = TONES_END) :
    nextTone gate s = noTone { s with tonesIndex := s.tonesIndex + 1 } := by
  simp [nextTone, getNext, h]

lemma nextTone_ns (gate : Nat → Bool) (s : TonesState)
    (h1 : s.mem s.tonesIndex ≠ TONES_END)
    (h2 : s.mem s.tonesIndex ≠ TONES_REPEAT) :
    nextTone gate s
      = loadTone gate (s.mem s.tonesIndex)
          { s with tonesPlaying := true, tonesIndex := s.tonesIndex + 1 } := by
  simp [nextTone, getNext, h1, h2]

lemma nextTone_rep (gate : Nat → Bool) (s : TonesState)
    (h : s.mem s.tonesIndex = TONES_REPEAT) :
    nextTone gate s
      = loadTone gate (s.mem s.tonesStart)
          { s with tonesPlaying := true, tonesIndex := s.tonesStart + 1 } := by
  simp [nextTone, getNext, h, TONES_REPEAT, TONES_END]

lemma nextTone_mem (gate : Nat → Bool) (s : TonesState) :
    (nextTone gate s).mem = s.mem := by
  by_cases h1 : s.mem s.tonesIndex = TONES_END
  · rw [nextTone_end gate s h1]; rfl
  · by_cases h2 : s.mem s.tonesIndex = TONES_REPEAT
    · rw [nextTone_rep gate s h2]; rfl
    · rw [nextTone_ns gate s h1 h2]; rfl

lemma nextTone_dac (gate : Nat → Bool) (s : TonesState) :
    (nextTone gate s).dacData = s.dacData := by
  by_cases h1 : s.mem s.tonesIndex = TONES_END
  · rw [nextTone_end gate s h1]; rfl
  · by_cases h2 : s.mem s.tonesIndex = TONES_REPEAT
    · rw [nextTone_rep gate s h2]; rfl
    · rw [nextTone_ns gate s h1 h2]; rfl

lemma nextTone_outCalls (gate : Nat → Bool) (s : TonesState)
    (h1 : s.mem s.tonesIndex ≠ TONES_END) :
    (nextTone gate s).outCalls = s.outCalls + 1 := by
  by_cases h2 : s.mem s.tonesIndex = TONES_REPEAT
  · rw [nextTone_rep gate s h2]; rfl
  · rw [nextTone_ns gate s h1 h2]; rfl

lemma nextTone_outCalls_end (gate : Nat → Bool) (s : TonesState)
    (h : s.mem s.tonesIndex = TONES_END) :
    (nextTone gate s).outCalls = s.outCalls := by
  rw [nextTone_end gate s h]; rfl

/-! ## Step lemmas for the tick handler -/

lemma tic_pos (gate : Nat → Bool) (s : TonesState)
    (h : 0 < s.durationToggleCount) :
    (TC3_Handler gate s).durationToggleCount = s.durationToggleCount - 1 ∧
    (TC3_Handler gate s).tonesPlaying = s.tonesPlaying ∧
    (TC3_Handler gate s).tonesIndex = s.tonesIndex ∧
    (TC3_Handler gate s).tonesStart = s.tonesStart ∧
    (TC3_Handler gate s).mem = s.mem ∧
    (TC3_Handler gate s).toneSilent = s.toneSilent ∧
    (TC3_Handler gate s).outCalls = s.outCalls := by
  have hne : s.durationToggleCount ≠ 0 := by omega
  by_cases hs : s.toneSilent <;> simp [TC3_Handler, hne, hs, h]

lemma tic_negative (gate : Nat → Bool) (s : TonesState)
    (h : s.durationToggleCount < 0) :
    (TC3_Handler gate s).durationToggleCount = s.durationToggleCount ∧
    (TC3_Handler gate s).tonesPlaying = s.tonesPlaying ∧
    (TC3_Handler gate s).tonesIndex = s.tonesIndex ∧
    (TC3_Handler gate s).tonesStart = s.tonesStart ∧
    (TC3_Handler gate s).mem = s.mem ∧
    (TC3_Handler gate s).toneSilent = s.toneSilent ∧
    (TC3_Handler gate s).outCalls = s.outCalls := by
  have hne : s.durationToggleCount ≠ 0 := by omega
  have hnp : ¬ s.durationToggleCount > 0 := by omega
  by_cases hs : s.toneSilent <;> simp [TC3_Handler, hne, hs, hnp]

lemma tic_zero (gate : Nat → Bool) (s : TonesState)
    (h : s.durationToggleCount = 0) :
    TC3_Handler gate s = nextTone gate s := by
  simp [TC3_Handler, h]

lemma tic_toggles (gate : Nat → Bool) (s : TonesState)
    (hsil : s.toneSilent = false) (h : s.durationToggleCount ≠ 0) :
    (TC3_Handler gate s).dacData ≠ s.dacData := by
  by_cases hd : s.dacData = 0 <;>
    by_cases hv : s.toneHighVol <;>
      by_cases hp : s.durationToggleCount > 0 <;>
        simp [TC3_Handler, h, hsil, hd, hv, hp] <;> omega

lemma tic_silent_dac (gate : Nat → Bool) (s : TonesState)
    (h : s.toneSilent = true) :
    (TC3_Handler gate s).dacData = s.dacData := by
  by_cases hz : s.durationToggleCount = 0
  · rw [tic_zero gate s hz]; exact nextTone_dac gate s
  · by_cases hp : s.durationToggleCount > 0 <;> simp [TC3_Handler, hz, h, hp]

lemma TC3_mem (gate : Nat → Bool) (s : TonesState) :
    (TC3_Handler gate s).mem = s.mem := by
  by_cases h : s.durationToggleCount = 0
  · rw [tic_zero gate s h]; exact nextTone_mem gate s
  · rcases Ne.lt_or_lt h with hneg | hpos
    · exact (tic_negative gate s hneg).2.2.2.2.1
    · exact (tic_pos gate s hpos).2.2.2.2.1

/-- Running `k ≤ n` ticks from a state whose toggle budget is the finite
value `n` counts the budget down to `n - k` and leaves every other field of
the playback state (except the DAC output) unchanged. -/
lemma tic_iter_countdown (gate : Nat → Bool) :
    ∀ (k : Nat) (s : TonesState) (n : Nat), k ≤ n →
      s.durationToggleCount = (n : Int) →
      ((TC3_Handler gate)^[k] s).durationToggleCount = ((n - k : Nat) : Int) ∧
      ((TC3_Handler gate)^[k] s).tonesPlaying = s.tonesPlaying ∧
      ((TC3_Handler gate)^[k] s).tonesIndex = s.tonesIndex ∧
      ((TC3_Handler gate)^[k] s).tonesStart = s.tonesStart ∧
      ((TC3_Handler gate)^[k] s).mem = s.mem ∧
      ((TC3_Handler gate)^[k] s).toneSilent = s.toneSilent ∧
      ((TC3_Handler gate)^[k] s).outCalls = s.outCalls := by
  intro k
  induction k with
  | zero => intro s n _ hn; simp [hn]
  | succ k ih =>
    intro s n hk hn
    have hn1 : 1 ≤ n := by omega
    have hpos : 0 < s.durationToggleCount := by rw [hn]; exact_mod_cast hn1
    obtain ⟨hc, hp, hi, hst, hm, hsl, ho⟩ := tic_pos gate s hpos
    have hc1 : (TC3_Handler gate s).durationToggleCount
        = ((n - 1 : Nat) : Int) := by rw [hc, hn]; omega
    have hrec := ih (TC3_Handler gate s) (n - 1) (by omega) hc1
    rw [Function.iterate_succ_apply]
    refine ⟨?_, ?_, ?_, ?_, ?_, ?_, ?_⟩
    · rw [hrec.1]; congr 1; omega
    · rw [hrec.2.1, hp]
    · rw [hrec.2.2.1, hi]
    · rw [hrec.2.2.2.1, hst]
    · rw [hrec.2.2.2.2.1, hm]
    · rw [hrec.2.2.2.2.2.1, hsl]
    · rw [hrec.2.2.2.2.2.2, ho]

/-- A negative (infinite-marker) toggle budget is preserved by any number
of ticks, along with the playing flag. -/
lemma tic_iter_inf (gate : Nat → Bool) :
    ∀ (k : Nat) (s : TonesState), s.durationToggleCount < 0 →
      ((TC3_Handler gate)^[k] s).durationToggleCount = s.durationToggleCount ∧
      ((TC3_Handler gate)^[k] s).tonesPlaying = s.tonesPlaying := by
  intro k
  induction k with
  | zero => intro s _; simp
  | succ k ih =>
    intro s h
    obtain ⟨hc, hp, _, _, _, _, _⟩ := tic_negative gate s h
    rw [Function.iterate_succ_apply]
    have hrec := ih (TC3_Handler gate s) (by rw [hc]; exact h)
    exact ⟨by rw [hrec.1, hc], by rw [hrec.2, hp]⟩

/-- Memory image of a word list: index `i` reads element `i`, with
`TONES_END` beyond the end. -/
def memOf (l : List Nat) : Nat → Nat := fun i => l.getD i TONES_END

/-- A mid-playback state over memory `m` with sequence start `start` and
read cursor `idx` (toggle budget just exhausted, about to advance). -/
def stateAt (m : Nat → Nat) (start idx : Nat) : TonesState :=
  { mem := m, tonesStart := start, tonesIndex := idx, inProgmem := false,
    tonesPlaying := true, toneSilent := false, toneHighVol := false,
    forceHighVol := false, forceNormVol := false,
    durationToggleCount := 0, timerCC := 0, timerEnabled := true,
    dacData := 0, outCalls := 0 }

/-- A gate that always denies sound. -/
def gateOff : Nat → Bool := fun _ => false

/-! ## Claim C1 -/

/-- C1 counterexample: the frequency code `0x8000` (frequency 0 with the
high-volume bit set) is NOT loaded as a silent rest with its following
duration.  It is bit-identical to `TONES_END`, so `nextTone` stops playback
(`tonesPlaying = false`) and does not consume the following duration word
(the cursor advances only past the code itself). -/
theorem high_volume_rest_cex :
    (nextTone gateOn (stateAt (memOf [0x8000, 250]) 0 0)).tonesPlaying = false
    ∧ (nextTone gateOn (stateAt (memOf [0x8000, 250]) 0 0)).tonesIndex = 1
    ∧ (nextTone gateOn (stateAt (memOf [0x8000, 250]) 0 0)).durationToggleCount
        = 0 := by
  exact ⟨by decide, by decide, by decide⟩

/-- C1 (amended): a frequency code equal to `TONE_HIGH_VOLUME` (`0x8000`,
frequency 0 plus the high-volume bit) coincides with the `TONES_END`
sentinel, so when it is read as the next sequence code `nextTone` treats it
as end-of-sequence and stops, rather than loading a silent rest.  Only when
such a code is re-read immediately after a `TONES_REPEAT` reset — the one
path that skips the sentinel test — is it loaded as a silent rest with its
following duration, the high-volume bit being stripped before the frequency
arithmetic. -/
theorem high_volume_rest :
    (∀ (gate : Nat → Bool) (s : TonesState),
        s.mem s.tonesIndex = TONE_HIGH_VOLUME →
        nextTone gate s = noTone { s with tonesIndex := s.tonesIndex + 1 })
    ∧ (∀ (gate : Nat → Bool) (s : TonesState),
        s.mem s.tonesIndex = TONES_REPEAT →
        s.mem s.tonesStart = TONE_HIGH_VOLUME →
        s.mem (s.tonesStart + 1) ≠ 0 →
        (nextTone gate s).tonesPlaying = true
        ∧ (nextTone gate s).toneSilent = true
        ∧ (nextTone gate s).durationToggleCount
            = (((s.mem (s.tonesStart + 1) * SILENT_FREQ) >>> 9 : Nat) : Int)) := by
  constructor
  · intro gate s h
    exact nextTone_end gate s h
  · intro gate s h hs hd
    rw [nextTone_rep gate s h]
    have hf : s.mem s.tonesStart &&& 0x7FFF = 0 := by rw [hs]; rfl
    refine ⟨rfl, loadTone_silent_rest gate _ _ hf, ?_⟩
    exact loadTone_count_rest gate _ _ hf hd

/-- Witness for C1: both parts applied at concrete states. -/
theorem high_volume_rest_w :
    (nextTone gateOn (stateAt (memOf [0x8000, 250]) 0 0)
      = noTone { stateAt (memOf [0x8000, 250]) 0 0 with tonesIndex := 0 + 1 })
    ∧ (nextTone gateOn (stateAt (memOf [0x8000, 250, TONES_REPEAT]) 0 2)).durationToggleCount
        = (((250 * SILENT_FREQ) >>> 9 : Nat) : Int) :=
  ⟨high_volume_rest.1 gateOn (stateAt (memOf [0x8000, 250]) 0 0) (by decide),
   (high_volume_rest.2 gateOn (stateAt (memOf [0x8000, 250, TONES_REPEAT]) 0 2)
      (by decide) (by decide) (by decide)).2.2⟩

/-! ## Claim C2 -/

/-- `PlayOne(440, 1024)` from the freshly constructed state, sound enabled. -/
def playOne440 : TonesState := tone1 gateOn 440 1024 (initState fun _ => 0)

/-- C2 counterexample: a tone loaded by `nextTone` with nonzero duration
1024 and stripped frequency `0 &&& 0x7FFF = 0` (a rest) gets toggle budget
`(1024 * SILENT_FREQ) >>> 9 = 50`, not `(1024 * 0) >>> 9 = 0` as the
claim's formula over the stripped frequency would require. -/
theorem toggle_budget_cex :
    (tone1 gateOn 0 1024 (initState fun _ => 0)).durationToggleCount
      ≠ (((1024 * ((0 : Nat) &&& 0x7FFF)) >>> 9 : Nat) : Int) := by
  decide

/-- C2 (amended): for every tone loaded by `nextTone` whose stripped
frequency is nonzero and whose duration `dur` is nonzero, the toggle budget
is `(dur * freq) >>> 9` (rests substitute `SILENT_FREQ`); and
`PlayOne(440, 1024)` gets budget `(1024 * 440) >>> 9 = 880`, stays playing
through all 880 output toggles (each tick flips the DAC), and on the 881st
tick `nextTone` reads the END sentinel and playing becomes false. -/
theorem toggle_budget :
    (∀ (gate : Nat → Bool) (s : TonesState),
        s.mem s.tonesIndex ≠ TONES_END →
        s.mem s.tonesIndex ≠ TONES_REPEAT →
        s.mem s.tonesIndex &&& 0x7FFF ≠ 0 →
        s.mem (s.tonesIndex + 1) ≠ 0 →
        (nextTone gate s).durationToggleCount
          = (((s.mem (s.tonesIndex + 1) * (s.mem s.tonesIndex &&& 0x7FFF)) >>> 9
               : Nat) : Int))
    ∧ playOne440.durationToggleCount = (((1024 * 440) >>> 9 : Nat) : Int)
    ∧ (∀ k, k ≤ 880 →
        ((TC3_Handler gateOn)^[k] playOne440).tonesPlaying = true)
    ∧ ((TC3_Handler gateOn)^[881] playOne440).tonesPlaying = false
    ∧ (∀ k, k < 880 →
        ((TC3_Handler gateOn)^[k + 1] playOne440).dacData
          ≠ ((TC3_Handler gateOn)^[k] playOne440).dacData) := by
  have h880 : playOne440.durationToggleCount = ((880 : Nat) : Int) := by decide
  have hplay : playOne440.tonesPlaying = true := by decide
  have hsil : playOne440.toneSilent = false := by decide
  have hidx : playOne440.tonesIndex = 2 := by decide
  have hmem2 : playOne440.mem 2 = TONES_END := by decide
  have run := fun (k : Nat) (hk : k ≤ 880) =>
    tic_iter_countdown gateOn k playOne440 880 hk h880
  refine ⟨?_, by decide, ?_, ?_, ?_⟩
  · intro gate s h1 h2 hf hd
    rw [nextTone_ns gate s h1 h2]
    exact loadTone_count gate _ _ hf hd
  · intro k hk
    exact ((run k hk).2.1).trans hplay
  · have hm : ((TC3_Handler gateOn)^[880] playOne440).mem = playOne440.mem :=
      (run 880 le_rfl).2.2.2.2.1
    have hix : ((TC3_Handler gateOn)^[880] playOne440).tonesIndex
        = playOne440.tonesIndex := (run 880 le_rfl).2.2.1
    have hz : ((TC3_Handler gateOn)^[880] playOne440).durationToggleCount
        = 0 := by
      rw [(run 880 le_rfl).1]
      norm_num
    have hend : ((TC3_Handler gateOn)^[880] playOne440).mem
        (((TC3_Handler gateOn)^[880] playOne440).tonesIndex) = TONES_END := by
      rw [hm, hix, hidx]; exact hmem2
    rw [Function.iterate_succ_apply', tic_zero gateOn _ hz,
        nextTone_end gateOn _ hend]
    rfl
  · intro k hk
    have hsilk : ((TC3_Handler gateOn)^[k] playOne440).toneSilent = false :=
      ((run k (by omega)).2.2.2.2.2.1).trans hsil
    have hck : ((TC3_Handler gateOn)^[k] playOne440).durationToggleCount
        = ((880 - k : Nat) : Int) := (run k (by omega)).1
    have hckne : ((TC3_Handler gateOn)^[k] playOne440).durationToggleCount
        ≠ 0 := by
      rw [hck]
      exact_mod_cast Nat.sub_ne_zero_of_lt hk
    rw [Function.iterate_succ_apply']
    exact tic_toggles gateOn _ hsilk hckne

/-- Witness for C2: the general budget formula applied at a concrete
pre-load state. -/
theorem toggle_budget_w :
    (nextTone gateOn (stateAt (memOf [440, 1024]) 0 0)).durationToggleCount
      = (((1024 * (440 &&& 0x7FFF)) >>> 9 : Nat) : Int) :=
  toggle_budget.1 gateOn (stateAt (memOf [440, 1024]) 0 0)
    (by decide) (by decide) (by decide) (by decide)

/-! ## Claim C3 -/

/-- C3: the sequential integer divisions `clockRate / 16 / f / 2 - 1` of
`nextTone` equal the single-division formula
`clockRate / (16 * f * 2) - 1` for every supported frequency, and that is
the value written to the timer compare register (modulo its 16-bit width)
whenever a non-rest tone is loaded. -/
theorem timer_period_formula :
    (∀ (clockRate f : Nat), 0 < f → f < 2 ^ 15 →
        timerCountFor clockRate f = clockRate / (16 * f * 2) - 1)
    ∧ (∀ (gate : Nat → Bool) (s : TonesState),
        s.mem s.tonesIndex ≠ TONES_END →
        s.mem s.tonesIndex ≠ TONES_REPEAT →
        s.mem s.tonesIndex &&& 0x7FFF ≠ 0 →
        (nextTone gate s).timerCC
          = timerCountFor F_CPU (s.mem s.tonesIndex &&& 0x7FFF) % 2 ^ 16) := by
  constructor
  · intro c f _ _
    unfold timerCountFor
    rw [Nat.div_div_eq_div_mul, Nat.div_div_eq_div_mul, Nat.mul_assoc]
  · intro gate s h1 h2 hf
    rw [nextTone_ns gate s h1 h2]
    exact loadTone_timerCC gate _ _ hf

/-- Witness for C3 at frequency 440 and the dotMG clock. -/
theorem timer_period_formula_w :
    timerCountFor F_CPU 440 = F_CPU / (16 * 440 * 2) - 1
    ∧ (nextTone gateOn (stateAt (memOf [440, 1024]) 0 0)).timerCC
        = timerCountFor F_CPU (440 &&& 0x7FFF) % 2 ^ 16 :=
  ⟨timer_period_formula.1 F_CPU 440 (by decide) (by decide),
   timer_period_formula.2 gateOn (stateAt (memOf [440, 1024]) 0 0)
     (by decide) (by decide) (by decide)⟩

/-! ## Claim C4 -/

/-- C4: `highVolume = (embedded bit set OR forceHigh) AND NOT forceNormal`
for every loaded tone; `volumeMode(VOLUME_ALWAYS_HIGH)` sets `forceHighVol`,
`VOLUME_ALWAYS_NORMAL` sets `forceNormVol`, `VOLUME_IN_TONE` clears both;
consequently AlwaysHigh forces the loaded tone's high-volume flag true,
AlwaysNormal forces it false, and InTone uses the tone's own embedded bit. -/
theorem volume_mode_correct :
    (∀ s : TonesState,
        (volumeMode VOLUME_ALWAYS_HIGH s).forceHighVol = true
        ∧ (volumeMode VOLUME_ALWAYS_HIGH s).forceNormVol = false
        ∧ (volumeMode VOLUME_ALWAYS_NORMAL s).forceNormVol = true
        ∧ (volumeMode VOLUME_ALWAYS_NORMAL s).forceHighVol = false
        ∧ (volumeMode VOLUME_IN_TONE s).forceHighVol = false
        ∧ (volumeMode VOLUME_IN_TONE s).forceNormVol = false)
    ∧ (∀ (gate : Nat → Bool) (s : TonesState),
        s.mem s.tonesIndex ≠ TONES_END →
        s.mem s.tonesIndex ≠ TONES_REPEAT →
        (nextTone gate s).toneHighVol
          = ((((s.mem s.tonesIndex &&& TONE_HIGH_VOLUME) != 0)
                || s.forceHighVol) && !s.forceNormVol))
    ∧ (∀ (gate : Nat → Bool) (s : TonesState),
        s.mem s.tonesIndex ≠ TONES_END →
        s.mem s.tonesIndex ≠ TONES_REPEAT →
        (nextTone gate (volumeMode VOLUME_ALWAYS_HIGH s)).toneHighVol = true
        ∧ (nextTone gate (volumeMode VOLUME_ALWAYS_NORMAL s)).toneHighVol = false
        ∧ (nextTone gate (volumeMode VOLUME_IN_TONE s)).toneHighVol
            = ((s.mem s.tonesIndex &&& TONE_HIGH_VOLUME) != 0)) := by
  refine ⟨?_, ?_, ?_⟩
  · intro s
    refine ⟨?_, ?_, ?_, ?_, ?_, ?_⟩ <;>
      simp [volumeMode, VOLUME_ALWAYS_HIGH, VOLUME_ALWAYS_NORMAL, VOLUME_IN_TONE]
  · intro gate s h1 h2
    rw [nextTone_ns gate s h1 h2]
    exact loadTone_highVol gate _ _
  · intro gate s h1 h2
    refine ⟨?_, ?_, ?_⟩
    · rw [nextTone_ns gate (volumeMode VOLUME_ALWAYS_HIGH s) h1 h2,
          loadTone_highVol]
      simp [volumeMode, VOLUME_ALWAYS_HIGH, VOLUME_ALWAYS_NORMAL]
    · rw [nextTone_ns gate (volumeMode VOLUME_ALWAYS_NORMAL s) h1 h2,
          loadTone_highVol]
      simp [volumeMode, VOLUME_ALWAYS_NORMAL]
    · rw [nextTone_ns gate (volumeMode VOLUME_IN_TONE s) h1 h2,
          loadTone_highVol]
      simp [volumeMode, VOLUME_IN_TONE, VOLUME_ALWAYS_NORMAL, VOLUME_ALWAYS_HIGH]

/-- Witness for C4: code `0x8000 + 440` (440 Hz, high-volume bit) loaded in
each of the three volume modes from a concrete state. -/
theorem volume_mode_correct_w :
    (volumeMode VOLUME_ALWAYS_HIGH (initState fun _ => 0)).forceHighVol = true
    ∧ (nextTone gateOn
        (volumeMode VOLUME_ALWAYS_NORMAL
          (stateAt (memOf [33208, 1024]) 0 0))).toneHighVol = false
    ∧ (nextTone gateOn (stateAt (memOf [33208, 1024]) 0 0)).toneHighVol
        = ((((33208 : Nat) &&& TONE_HIGH_VOLUME) != 0) || false) && !false :=
  ⟨(volume_mode_correct.1 (initState fun _ => 0)).1,
   (volume_mode_correct.2.2 gateOn (stateAt (memOf [33208, 1024]) 0 0)
      (by decide) (by decide)).2.1,
   volume_mode_correct.2.1 gateOn (stateAt (memOf [33208, 1024]) 0 0)
      (by decide) (by decide)⟩

/-! ## Claim C5 -/

/-- The spec's example sequence `[220,1000, 0,250, 440,500, 880,2000,
TONES_REPEAT]` as a memory image at base 0. -/
def seqRepMem : Nat → Nat :=
  memOf [220, 1000, 0, 250, 440, 500, 880, 2000, TONES_REPEAT]

/-- C5: reading the `TONES_REPEAT` sentinel resets the cursor to the
sequence start and loads the code found there as the new tone's frequency
code; concretely, when the example sequence's last tone (880 Hz) has
exhausted its budget, the next tick wraps around and loads the 220 Hz tone
(budget `(1000 * 220) >>> 9 = 429`), still playing. -/
theorem repeat_wraps :
    (∀ (gate : Nat → Bool) (s : TonesState),
        s.mem s.tonesIndex = TONES_REPEAT →
        nextTone gate s
          = loadTone gate (s.mem s.tonesStart)
              { s with tonesPlaying := true, tonesIndex := s.tonesStart + 1 })
    ∧ ((TC3_Handler gateOn (stateAt seqRepMem 0 8)).tonesPlaying = true
       ∧ (TC3_Handler gateOn (stateAt seqRepMem 0 8)).tonesIndex = 2
       ∧ (TC3_Handler gateOn (stateAt seqRepMem 0 8)).durationToggleCount
           = (((1000 * 220) >>> 9 : Nat) : Int)
       ∧ (TC3_Handler gateOn (stateAt seqRepMem 0 8)).toneSilent = false) := by
  constructor
  · intro gate s h
    exact nextTone_rep gate s h
  · exact ⟨by decide, by decide, by decide, by decide⟩

/-- Witness for C5: the repeat equation at the concrete wrap-around state. -/
theorem repeat_wraps_w :
    nextTone gateOn (stateAt seqRepMem 0 8)
      = loadTone gateOn (seqRepMem 0)
          { stateAt seqRepMem 0 8 with tonesPlaying := true, tonesIndex := 0 + 1 } :=
  repeat_wraps.1 gateOn (stateAt seqRepMem 0 8) (by decide)

/-! ## Claim C6 -/

/-- C6: the mute predicate is queried exactly once per loaded tone (the
call counter rises by exactly 1 on every load, and not at all on an END
read or on a mid-tone tick); if it returns false at load time the tone is
marked silent; a tick never changes the DAC output while silent, and
mid-tone ticks change neither the silent flag nor the call counter — so a
tone loaded while muted stays silent for its entire duration even if the
predicate would answer true later. -/
theorem mute_gate_once :
    (∀ (gate : Nat → Bool) (s : TonesState),
        s.mem s.tonesIndex ≠ TONES_END →
        (nextTone gate s).outCalls = s.outCalls + 1)
    ∧ (∀ (gate : Nat → Bool) (s : TonesState),
        s.mem s.tonesIndex = TONES_END →
        (nextTone gate s).outCalls = s.outCalls)
    ∧ (∀ (gate : Nat → Bool) (s : TonesState),
        s.mem s.tonesIndex ≠ TONES_END →
        gate s.outCalls = false →
        (nextTone gate s).toneSilent = true)
    ∧ (∀ (gate : Nat → Bool) (s : TonesState),
        s.durationToggleCount ≠ 0 →
        (TC3_Handler gate s).outCalls = s.outCalls
        ∧ (TC3_Handler gate s).toneSilent = s.toneSilent)
    ∧ (∀ (gate : Nat → Bool) (s : TonesState),
        s.toneSilent = true →
        (TC3_Handler gate s).dacData = s.dacData) := by
  refine ⟨?_, ?_, ?_, ?_, ?_⟩
  · intro gate s h1
    exact nextTone_outCalls gate s h1
  · intro gate s h
    exact nextTone_outCalls_end gate s h
  · intro gate s h1 hg
    by_cases h2 : s.mem s.tonesIndex = TONES_REPEAT
    · rw [nextTone_rep gate s h2]
      exact loadTone_silent_muted gate _ _ hg
    · rw [nextTone_ns gate s h1 h2]
      exact loadTone_silent_muted gate _ _ hg
  · intro gate s h
    rcases Ne.lt_or_lt h with hneg | hpos
    · exact ⟨(tic_negative gate s hneg).2.2.2.2.2.2,
             (tic_negative gate s hneg).2.2.2.2.2.1⟩
    · exact ⟨(tic_pos gate s hpos).2.2.2.2.2.2,
             (tic_pos gate s hpos).2.2.2.2.2.1⟩
  · intro gate s h
    exact tic_silent_dac gate s h

/-- Witness for C6: a 440 Hz tone loaded while the gate denies sound is
silent, the call counter rises to 1, and the following tick leaves the DAC
untouched. -/
theorem mute_gate_once_w :
    (nextTone gateOff (stateAt (memOf [440, 1024]) 0 0)).toneSilent = true
    ∧ (nextTone gateOff (stateAt (memOf [440, 1024]) 0 0)).outCalls = 0 + 1
    ∧ (TC3_Handler gateOff
        (nextTone gateOff (stateAt (memOf [440, 1024]) 0 0))).dacData
        = (nextTone gateOff (stateAt (memOf [440, 1024]) 0 0)).dacData :=
  ⟨mute_gate_once.2.2.1 gateOff (stateAt (memOf [440, 1024]) 0 0)
      (by decide) (by decide),
   mute_gate_once.1 gateOff (stateAt (memOf [440, 1024]) 0 0) (by decide),
   mute_gate_once.2.2.2.2 gateOff _
     (mute_gate_once.2.2.1 gateOff (stateAt (memOf [440, 1024]) 0 0)
        (by decide) (by decide))⟩

/-! ## Claim C7 -/

/-- C7: `PlayOne(freq, 0)` loads the infinite marker `-1`; a tick only
decrements a positive budget, so a negative budget is preserved verbatim
and the playing flag survives every tick; `noTone` is what clears it. -/
theorem infinite_duration :
    (∀ (gate : Nat → Bool) (f : Nat) (s : TonesState),
        f ≠ TONES_END → f ≠ TONES_REPEAT →
        (tone1 gate f 0 s).durationToggleCount = -1
        ∧ (tone1 gate f 0 s).tonesPlaying = true)
    ∧ (∀ (gate : Nat → Bool) (s : TonesState),
        s.durationToggleCount < 0 →
        (TC3_Handler gate s).durationToggleCount = s.durationToggleCount)
    ∧ (∀ (gate : Nat → Bool) (s : TonesState) (k : Nat),
        s.durationToggleCount = -1 →
        ((TC3_Handler gate)^[k] s).durationToggleCount = -1
        ∧ ((TC3_Handler gate)^[k] s).tonesPlaying = s.tonesPlaying)
    ∧ (∀ s : TonesState, (noTone s).tonesPlaying = false) := by
  refine ⟨?_, ?_, ?_, ?_⟩
  · intro gate f s h1 h2
    simp only [tone1]
    rw [nextTone_ns gate _ (by simpa [writeMem] using h1)
          (by simpa [writeMem] using h2)]
    constructor
    · exact loadTone_count_inf gate _ _ (by simp [writeMem])
    · rfl
  · intro gate s h
    exact (tic_negative gate s h).1
  · intro gate s k h
    have hneg : s.durationToggleCount < 0 := by rw [h]; decide
    have hrec := tic_iter_inf gate k s hneg
    exact ⟨by rw [hrec.1, h], hrec.2⟩
  · intro s
    rfl

/-- Witness for C7: `PlayOne(440, 0)` is still playing after 1000 ticks. -/
theorem infinite_duration_w :
    (tone1 gateOn 440 0 (initState fun _ => 0)).durationToggleCount = -1
    ∧ ((TC3_Handler gateOn)^[1000]
        (tone1 gateOn 440 0 (initState fun _ => 0))).tonesPlaying
        = (tone1 gateOn 440 0 (initState fun _ => 0)).tonesPlaying :=
  ⟨(infinite_duration.1 gateOn 440 (initState fun _ => 0)
      (by decide) (by decide)).1,
   (infinite_duration.2.2.1 gateOn (tone1 gateOn 440 0 (initState fun _ => 0))
      1000
      ((infinite_duration.1 gateOn 440 (initState fun _ => 0)
          (by decide) (by decide)).1)).2⟩

/-! ## Claim C8 -/

/-- C8: the constructor writes `TONES_END` into buffer slot
`MAX_TONES * 2 = 6`; the 1-tone call writes exactly slots 0,1 plus its own
terminator at 2; the 2-tone call writes exactly slots 0..3 plus its
terminator at 4; the 3-tone call writes exactly slots 0..5 and no
terminator; and no other operation (sequence plays, stop, volume mode,
ticks, tone advance) writes memory at all — so slot 6 holds the
constructor's sentinel forever. -/
theorem end_sentinel_invariant :
    (∀ m0 : Nat → Nat, (initState m0).mem (MAX_TONES * 2) = TONES_END)
    ∧ (∀ (gate : Nat → Bool) (f d : Nat) (s : TonesState),
        (tone1 gate f d s).mem 0 = f
        ∧ (tone1 gate f d s).mem 1 = d
        ∧ (tone1 gate f d s).mem 2 = TONES_END
        ∧ ∀ j, 2 < j → (tone1 gate f d s).mem j = s.mem j)
    ∧ (∀ (gate : Nat → Bool) (f1 d1 f2 d2 : Nat) (s : TonesState),
        (tone2 gate f1 d1 f2 d2 s).mem 4 = TONES_END
        ∧ ∀ j, 4 < j → (tone2 gate f1 d1 f2 d2 s).mem j = s.mem j)
    ∧ (∀ (gate : Nat → Bool) (f1 d1 f2 d2 f3 d3 : Nat) (s : TonesState),
        ∀ j, 5 < j → (tone3 gate f1 d1 f2 d2 f3 d3 s).mem j = s.mem j)
    ∧ (∀ (gate : Nat → Bool) (p : Nat) (s : TonesState),
        (tones gate p s).mem = s.mem ∧ (tonesInRAM gate p s).mem = s.mem)
    ∧ (∀ (gate : Nat → Bool) (s : TonesState),
        (TC3_Handler gate s).mem = s.mem ∧ (nextTone gate s).mem = s.mem)
    ∧ (∀ s : TonesState,
        (noTone s).mem = s.mem ∧ ∀ mo : Nat, (volumeMode mo s).mem = s.mem) := by
  refine ⟨?_, ?_, ?_, ?_, ?_, ?_, ?_⟩
  · intro m0
    simp [initState, writeMem]
  · intro gate f d s
    have hm : (tone1 gate f d s).mem
        = writeMem (writeMem (writeMem s.mem 0 f) 1 d) 2 TONES_END := by
      simp only [tone1]; exact nextTone_mem gate _
    refine ⟨?_, ?_, ?_, ?_⟩
    · rw [hm]; simp [writeMem]
    · rw [hm]; simp [writeMem]
    · rw [hm]; simp [writeMem]
    · intro j hj
      have hj0 : j ≠ 0 := by omega
      have hj1 : j ≠ 1 := by omega
      have hj2 : j ≠ 2 := by omega
      rw [hm]; simp [writeMem, hj0, hj1, hj2]
  · intro gate f1 d1 f2 d2 s
    have hm : (tone2 gate f1 d1 f2 d2 s).mem
        = writeMem (writeMem (writeMem (writeMem
            (writeMem s.mem 0 f1) 1 d1) 2 f2) 3 d2) 4 TONES_END := by
      simp only [tone2]; exact nextTone_mem gate _
    refine ⟨?_, ?_⟩
    · rw [hm]; simp [writeMem]
    · intro j hj
      have hj0 : j ≠ 0 := by omega
      have hj1 : j ≠ 1 := by omega
      have hj2 : j ≠ 2 := by omega
      have hj3 : j ≠ 3 := by omega
      have hj4 : j ≠ 4 := by omega
      rw [hm]; simp [writeMem, hj0, hj1, hj2, hj3, hj4]
  · intro gate f1 d1 f2 d2 f3 d3 s
    have hm : (tone3 gate f1 d1 f2 d2 f3 d3 s).mem
        = writeMem (writeMem (writeMem (writeMem
            (writeMem (writeMem s.mem 0 f1) 1 d1) 2 f2) 3 d2) 4 f3)
            5 d3 := by
      simp only [tone3]; exact nextTone_mem gate _
    intro j hj
    have hj0 : j ≠ 0 := by omega
    have hj1 : j ≠ 1 := by omega
    have hj2 : j ≠ 2 := by omega
    have hj3 : j ≠ 3 := by omega
    have hj4 : j ≠ 4 := by omega
    have hj5 : j ≠ 5 := by omega
    rw [hm]; simp [writeMem, hj0, hj1, hj2, hj3, hj4, hj5]
  · intro gate p s
    constructor
    · simp only [tones]; exact nextTone_mem gate _
    · simp only [tonesInRAM]; exact nextTone_mem gate _
  · intro gate s
    exact ⟨TC3_mem gate s, nextTone_mem gate s⟩
  · intro s
    refine ⟨rfl, ?_⟩
    intro mo
    unfold volumeMode
    split_ifs <;> rfl

/-- Witness for C8: after construction and a 3-tone call, slot 6 still
holds the constructor's sentinel. -/
theorem end_sentinel_invariant_w :
    (tone3 gateOn 262 100 330 100 392 100 (initState fun _ => 0)).mem 6
      = (initState (fun _ => 0)).mem 6
    ∧ (tone1 gateOn 440 100 (initState fun _ => 0)).mem 2 = TONES_END :=
  ⟨end_sentinel_invariant.2.2.2.1 gateOn 262 100 330 100 392 100
      (initState fun _ => 0) 6 (by decide),
   (end_sentinel_invariant.2.1 gateOn 440 100 (initState fun _ => 0)).2.2.1⟩

/-! ## Claim C9 -/

/-- C9: every Play entry point, called from an arbitrary prior state
(including mid-playback of any earlier sequence), unconditionally resets
the cursor to the new sequence's start, marks playback active, and loads
the new first tone — the result's cursor and playback fields do not depend
on the superseded state's cursor or progress. -/
theorem play_supersedes :
    (∀ (gate : Nat → Bool) (f d : Nat) (s : TonesState),
        f ≠ TONES_END → f ≠ TONES_REPEAT →
        (tone1 gate f d s).tonesStart = 0
        ∧ (tone1 gate f d s).tonesIndex = 2
        ∧ (tone1 gate f d s).tonesPlaying = true)
    ∧ (∀ (gate : Nat → Bool) (f1 d1 f2 d2 : Nat) (s : TonesState),
        f1 ≠ TONES_END → f1 ≠ TONES_REPEAT →
        (tone2 gate f1 d1 f2 d2 s).tonesStart = 0
        ∧ (tone2 gate f1 d1 f2 d2 s).tonesIndex = 2
        ∧ (tone2 gate f1 d1 f2 d2 s).tonesPlaying = true
        ∧ (f1 &&& 0x7FFF ≠ 0 → d1 ≠ 0 →
            (tone2 gate f1 d1 f2 d2 s).durationToggleCount
              = (((d1 * (f1 &&& 0x7FFF)) >>> 9 : Nat) : Int)))
    ∧ (∀ (gate : Nat → Bool) (f1 d1 f2 d2 f3 d3 : Nat) (s : TonesState),
        f1 ≠ TONES_END → f1 ≠ TONES_REPEAT →
        (tone3 gate f1 d1 f2 d2 f3 d3 s).tonesStart = 0
        ∧ (tone3 gate f1 d1 f2 d2 f3 d3 s).tonesIndex = 2
        ∧ (tone3 gate f1 d1 f2 d2 f3 d3 s).tonesPlaying = true)
    ∧ (∀ (gate : Nat → Bool) (p : Nat) (s : TonesState),
        s.mem p ≠ TONES_END → s.mem p ≠ TONES_REPEAT →
        (tones gate p s).tonesStart = p
        ∧ (tones gate p s).tonesIndex = p + 2
        ∧ (tones gate p s).tonesPlaying = true)
    ∧ (∀ (gate : Nat → Bool) (p : Nat) (s : TonesState),
        s.mem p ≠ TONES_END → s.mem p ≠ TONES_REPEAT →
        (tonesInRAM gate p s).tonesStart = p
        ∧ (tonesInRAM gate p s).tonesIndex = p + 2
        ∧ (tonesInRAM gate p s).tonesPlaying = true) := by
  refine ⟨?_, ?_, ?_, ?_, ?_⟩
  · intro gate f d s h1 h2
    simp only [tone1]
    rw [nextTone_ns gate _ (by simpa [writeMem] using h1)
          (by simpa [writeMem] using h2)]
    exact ⟨rfl, rfl, rfl⟩
  · intro gate f1 d1 f2 d2 s h1 h2
    simp only [tone2]
    rw [nextTone_ns gate _ (by simpa [writeMem] using h1)
          (by simpa [writeMem] using h2)]
    refine ⟨rfl, rfl, rfl, ?_⟩
    intro hf hd
    exact (loadTone_count gate _ _ (by simpa [writeMem] using hf)
      (by simpa [writeMem] using hd)).trans (by simp [writeMem])
  · intro gate f1 d1 f2 d2 f3 d3 s h1 h2
    simp only [tone3]
    rw [nextTone_ns gate _ (by simpa [writeMem] using h1)
          (by simpa [writeMem] using h2)]
    exact ⟨rfl, rfl, rfl⟩
  · intro gate p s h1 h2
    simp only [tones]
    rw [nextTone_ns gate _ h1 h2]
    exact ⟨rfl, rfl, rfl⟩
  · intro gate p s h1 h2
    simp only [tonesInRAM]
    rw [nextTone_ns gate _ h1 h2]
    exact ⟨rfl, rfl, rfl⟩

/-- Witness for C9: `PlayTwo(330,100, 440,100)` issued in the middle of the
repeating example sequence restarts from the internal buffer's first tone. -/
theorem play_supersedes_w :
    (tone2 gateOn 330 100 440 100 (stateAt seqRepMem 0 6)).tonesStart = 0
    ∧ (tone2 gateOn 330 100 440 100 (stateAt seqRepMem 0 6)).tonesIndex = 2
    ∧ (tone2 gateOn 330 100 440 100 (stateAt seqRepMem 0 6)).tonesPlaying
        = true
    ∧ (tones gateOn 40 (stateAt (memOf (List.replicate 40 0 ++ [220, 1000]))
          0 0)).tonesIndex = 40 + 2 :=
  ⟨(play_supersedes.2.1 gateOn 330 100 440 100 (stateAt seqRepMem 0 6)
      (by decide) (by decide)).1,
   (play_supersedes.2.1 gateOn 330 100 440 100 (stateAt seqRepMem 0 6)
      (by decide) (by decide)).2.1,
   (play_supersedes.2.1 gateOn 330 100 440 100 (stateAt seqRepMem 0 6)
      (by decide) (by decide)).2.2.1,
   (play_supersedes.2.2.2.1 gateOn 40
      (stateAt (memOf (List.replicate 40 0 ++ [220, 1000])) 0 0)
      (by decide) (by decide)).2.1⟩

/-! ## Claim C10 -/

/-- C10: a rest tone (frequency code 0) with nonzero duration `dur` is
loaded with the substitute frequency `SILENT_FREQ = 25` in both the timer
period and the toggle budget: the budget becomes
`(dur * SILENT_FREQ) >>> 9`, the timer compare register gets the
`SILENT_FREQ` period, the tone is marked silent, and playback stays
active. -/
theorem rest_uses_silent_freq :
    ∀ (gate : Nat → Bool) (s : TonesState),
      s.mem s.tonesIndex = 0 →
      s.mem (s.tonesIndex + 1) ≠ 0 →
      (nextTone gate s).durationToggleCount
        = (((s.mem (s.tonesIndex + 1) * SILENT_FREQ) >>> 9 : Nat) : Int)
      ∧ (nextTone gate s).timerCC = timerCountFor F_CPU SILENT_FREQ % 2 ^ 16
      ∧ (nextTone gate s).toneSilent = true
      ∧ (nextTone gate s).tonesPlaying = true := by
  intro gate s h0 hd
  have h1 : s.mem s.tonesIndex ≠ TONES_END := by rw [h0]; decide
  have h2 : s.mem s.tonesIndex ≠ TONES_REPEAT := by rw [h0]; decide
  have hf : s.mem s.tonesIndex &&& 0x7FFF = 0 := by rw [h0]; rfl
  rw [nextTone_ns gate s h1 h2]
  exact ⟨loadTone_count_rest gate _ _ hf hd,
         loadTone_timerCC_rest gate _ _ hf,
         loadTone_silent_rest gate _ _ hf,
         rfl⟩

/-- Witness for C10: a rest of duration 250 gets budget
`(250 * 25) >>> 9 = 12`, not 0. -/
theorem rest_uses_silent_freq_w :
    (nextTone gateOn (stateAt (memOf [0, 250]) 0 0)).durationToggleCount
      = (((250 * SILENT_FREQ) >>> 9 : Nat) : Int)
    ∧ (nextTone gateOn (stateAt (memOf [0, 250]) 0 0)).toneSilent = true :=
  ⟨(rest_uses_silent_freq gateOn (stateAt (memOf [0, 250]) 0 0)
      (by decide) (by decide)).1,
   (rest_uses_silent_freq gateOn (stateAt (memOf [0, 250]) 0 0)
      (by decide) (by decide)).2.2.1⟩
